import Mathlib

/-!
Verification of the `ifileoperation` binding layer (lojack5/IFileOperation).

This file gives a shallow embedding, in Lean 4, of the host-language logic of
the repository: error-code normalization and translation
(`src/ifileoperation/errors.py`, `src/ifileoperation/com/common.py`), the
progress-sink bridge (`src/ifileoperation/com/fileoperationprogresssink.py`),
name resolution (`src/ifileoperation/com/filesysbinddata.py`), and the
`FileOperator` session scheduler (`src/ifileoperation/fileoperator.py`).
The native Windows shell engine is opaque to the wrapper; its behaviour at
each call boundary is a parameter of the embedded functions (an outcome value
describing what the native call returned or which COM error it raised).

Machine integers are modelled as `Int`/`Nat` with explicit two's-complement
conversion where the source performs one (`struct.pack`/`unpack`).  Python
exceptions are modelled by the `PyExc` type; a function that can raise returns
`Except PyExc`.  Python `dict`s keyed by strings are modelled as association
lists with overwrite-on-assign semantics.
-/

namespace IFileOp

/-- Python exceptions that appear at the boundaries modelled here.
`fileOperatorError` carries the (normalized) HRESULT stored on the instance
and the native message text; the builtin-exception constructors
(`fileExistsError`, …) carry the native message text (Python passes the whole
`e.args` tuple through; the classification kind is what matters here).
`comError` is a raw `pythoncom`/`pywintypes` `com_error` travelling
untranslated, carrying its signed HRESULT and message. -/
inductive PyExc where
  | comError (hresult : Int) (msg : String)
  | fileNotFoundError (path : String)
  | notADirectoryError (msg : String)
  | isADirectoryError (msg : String)
  | permissionError (msg : String)
  | fileExistsError (msg : String)
  | fileOperatorError (hresult : Int) (msg : String)
  | unexpectedError
  | ifileOperationError (msg : String)
  | userError (msg : String)
  deriving DecidableEq, Repr

/-! ## Result-code constants (src/ifileoperation/flags.py, class FileOperationResult) -/

def FileOperationResult.SUCCESS : Int := 0x270008

def FileOperationResult.E_DESTINATION_IS_FILE : Int := 0x8027000B

def FileOperationResult.E_DESTINATION_IS_FOLDER : Int := 0x8027000C

def FileOperationResult.E_REQUIRES_ELEVATION : Int := 0x80270002

def FileOperationResult.E_ACCESS_DENIED_SOURCE : Int := 0x80270021

def FileOperationResult.E_ACCESS_DENIED_DESTINATION : Int := 0x80270022

def FileOperationResult.E_ALREADY_EXISTS_NORMAL : Int := 0x80270029

def FileOperationResult.E_ALREADY_EXISTS_READONLY : Int := 0x8027002A

def FileOperationResult.E_ALREADY_EXISTS_SYSTEM : Int := 0x8027002B

def FileOperationResult.E_ALREADY_EXISTS_FOLDER : Int := 0x8027002C

/-! ## Signed/unsigned HRESULT normalization (src/ifileoperation/errors.py) -/

/-- `int32_to_uint32` from `errors.py`:
`struct.unpack('I', struct.pack('i', value))[0]`, i.e. reinterpret a signed
32-bit integer as unsigned.  `struct.pack('i', …)` requires
`-2^31 ≤ value < 2^31`; on that domain the reinterpretation is reduction
modulo `2^32` (theorems carry the range as a hypothesis). -/
def int32_to_uint32 (value : Int) : Int :=
  value % 2 ^ 32

/-- The normalization pattern used verbatim both in
`com/common.py` (`convert_exceptions`, lines 59-60) and in
`errors.py` (`FileOperatorError.__init__`, lines 40-41):
`if hresult < 0: hresult = int32_to_uint32(hresult)`. -/
def normalize_hresult (hresult : Int) : Int :=
  if hresult < 0 then int32_to_uint32 hresult else hresult

/-- `FileOperatorError.__init__` (errors.py lines 30-47): normalizes a negative
HRESULT, stores it as `self.hresult`, and formats the message around the
native text.  We keep the code and the native message as structured fields. -/
def FileOperatorError.make (hresult : Int) (msg : String) : PyExc :=
  PyExc.fileOperatorError (normalize_hresult hresult) msg

/-! ## Error classification (src/ifileoperation/com/common.py) -/

/-- The fixed dictionary `_hresult_to_exception` (com/common.py lines 31-42),
as a lookup from a (normalized) code to the constructor of the exception
raised for it. -/
def hresult_to_exception (hr : Int) : Option (String → PyExc) :=
  if hr = FileOperationResult.E_DESTINATION_IS_FILE then some PyExc.notADirectoryError
  else if hr = FileOperationResult.E_DESTINATION_IS_FOLDER then some PyExc.isADirectoryError
  else if hr = FileOperationResult.E_ACCESS_DENIED_DESTINATION then some PyExc.permissionError
  else if hr = FileOperationResult.E_ACCESS_DENIED_SOURCE then some PyExc.permissionError
  else if hr = FileOperationResult.E_REQUIRES_ELEVATION then some PyExc.permissionError
  else if hr = FileOperationResult.E_ALREADY_EXISTS_FOLDER then some PyExc.fileExistsError
  else if hr = FileOperationResult.E_ALREADY_EXISTS_NORMAL then some PyExc.fileExistsError
  else if hr = FileOperationResult.E_ALREADY_EXISTS_READONLY then some PyExc.fileExistsError
  else if hr = FileOperationResult.E_ALREADY_EXISTS_SYSTEM then some PyExc.fileExistsError
  else none

/-- The body of the `convert_exceptions` wrapper (com/common.py lines 52-64):
given the signed HRESULT and message of a caught `pythoncom.com_error`,
normalize the code, look it up in `_hresult_to_exception`, and produce the
exception that is raised (`mapped(*e.args)` on a hit, `FileOperatorError(*e.args)`
otherwise — note the original `e.args`, whose HRESULT `FileOperatorError`
normalizes again itself). -/
def convert_exceptions (hresult : Int) (msg : String) : PyExc :=
  match hresult_to_exception (normalize_hresult hresult) with
  | some mk => mk msg
  | none => FileOperatorError.make hresult msg

end IFileOp

namespace IFileOp

/-- Helper: on the int32 domain, normalization of a negative code adds `2^32`. -/
theorem normalize_hresult_neg (v : Int) (h₁ : -(2 ^ 31) ≤ v) (hneg : v < 0) :
    normalize_hresult v = v + 2 ^ 32 := by
  have h2 : (0:Int) < 2 ^ 32 := by norm_num
  unfold normalize_hresult int32_to_uint32
  rw [if_pos hneg]
  rw [Int.emod_def]
  have hdiv : v / 2 ^ 32 = -1 := by
    have hlt : v < 0 := hneg
    have hge : -(2 ^ 32) ≤ v := by
      have : -(2 ^ 32) ≤ -(2 ^ 31 : Int) := by norm_num
      omega
    omega
  rw [hdiv]
  ring

/-- Helper: normalization leaves a non-negative code unchanged. -/
theorem normalize_hresult_nonneg (v : Int) (h : 0 ≤ v) :
    normalize_hresult v = v := by
  unfold normalize_hresult
  rw [if_neg (by omega)]

end IFileOp

namespace IFileOp

/-- Every constructor the table `_hresult_to_exception` can return builds one
of the four mapped builtin exception kinds, never a `FileOperatorError`. -/
theorem hresult_to_exception_some_cases (hr : Int) (mk : String → PyExc)
    (h : hresult_to_exception hr = some mk) (msg : String) :
    mk msg = PyExc.notADirectoryError msg ∨ mk msg = PyExc.isADirectoryError msg ∨
      mk msg = PyExc.permissionError msg ∨ mk msg = PyExc.fileExistsError msg := by
  unfold hresult_to_exception at h
  split_ifs at h <;>
    first
      | exact Option.noConfusion h
      | (injection h with h; subst h; simp)

/-- C4: for every signed 32-bit native result code, a negative code is
converted to its unsigned equivalent (`value + 2^32`) before the table lookup
— classification of the signed and of the unsigned representation agree — a
non-negative code is compared unchanged, the lookup key is non-negative, and
the generic error object (`FileOperatorError`) carries exactly the normalized
code. -/
theorem convert_exceptions_normalizes (v : Int) (msg : String)
    (h₁ : -(2 ^ 31) ≤ v) (h₂ : v < 2 ^ 31) :
    (v < 0 → normalize_hresult v = v + 2 ^ 32) ∧
    (0 ≤ v → normalize_hresult v = v) ∧
    0 ≤ normalize_hresult v ∧
    (v < 0 → convert_exceptions v msg = convert_exceptions (v + 2 ^ 32) msg) ∧
    (∀ h m, convert_exceptions v msg = PyExc.fileOperatorError h m →
      h = normalize_hresult v) := by
  have hnn : 0 ≤ normalize_hresult v := by
    unfold normalize_hresult
    split_ifs with hneg
    · rw [show int32_to_uint32 v = v + 2 ^ 32 by
        have := normalize_hresult_neg v h₁ hneg
        unfold normalize_hresult at this
        rwa [if_pos hneg] at this]
      omega
    · omega
  refine ⟨fun hneg => normalize_hresult_neg v h₁ hneg,
    fun hp => normalize_hresult_nonneg v hp, hnn, ?_, ?_⟩
  · intro hneg
    have hkey : normalize_hresult (v + 2 ^ 32) = normalize_hresult v := by
      rw [normalize_hresult_neg v h₁ hneg, normalize_hresult_nonneg _ (by omega)]
    unfold convert_exceptions
    rw [hkey]
    rcases hmk : hresult_to_exception (normalize_hresult v) with _ | mk
    · show FileOperatorError.make v msg = FileOperatorError.make (v + 2 ^ 32) msg
      unfold FileOperatorError.make
      rw [normalize_hresult_neg v h₁ hneg, normalize_hresult_nonneg _ (by omega)]
    · rfl
  · intro h m heq
    unfold convert_exceptions at heq
    rcases hmk : hresult_to_exception (normalize_hresult v) with _ | mk <;>
      rw [hmk] at heq
    · have heq' : FileOperatorError.make v msg = PyExc.fileOperatorError h m := heq
      unfold FileOperatorError.make at heq'
      injection heq' with hh _
      omega
    · have heq' : mk msg = PyExc.fileOperatorError h m := heq
      rcases hresult_to_exception_some_cases _ _ hmk msg with hc | hc | hc | hc <;>
        rw [hc] at heq' <;> exact PyExc.noConfusion heq'

/-- C4 witness at the concrete signed code `-2144927703` (`0x80270029` as a
signed 32-bit value). -/
theorem convert_exceptions_normalizes_witness :
    (-(2 ^ 31) ≤ (-2144927703 : Int)) ∧ ((-2144927703 : Int) < 2 ^ 31) ∧
      normalize_hresult (-2144927703) = -2144927703 + 2 ^ 32 := by
  refine ⟨by norm_num, by norm_num, ?_⟩
  exact (convert_exceptions_normalizes (-2144927703) "" (by norm_num)
    (by norm_num)).1 (by norm_num)

end IFileOp

namespace IFileOp

/-- C5: the classification at the call boundary is the fixed total mapping of
`convert_exceptions`: the four already-exists variant codes raise the single
already-exists kind, the two access-denied codes and the elevation code raise
the permission kind, destination-is-file / destination-is-folder raise the
type-mismatch kinds, and every normalized code outside the table raises the
generic operation-failed error carrying the normalized code and the native
message. -/
theorem convert_exceptions_taxonomy (v : Int) (msg : String) :
    ((normalize_hresult v = FileOperationResult.E_ALREADY_EXISTS_FOLDER ∨
      normalize_hresult v = FileOperationResult.E_ALREADY_EXISTS_NORMAL ∨
      normalize_hresult v = FileOperationResult.E_ALREADY_EXISTS_READONLY ∨
      normalize_hresult v = FileOperationResult.E_ALREADY_EXISTS_SYSTEM) →
      convert_exceptions v msg = PyExc.fileExistsError msg) ∧
    ((normalize_hresult v = FileOperationResult.E_ACCESS_DENIED_SOURCE ∨
      normalize_hresult v = FileOperationResult.E_ACCESS_DENIED_DESTINATION ∨
      normalize_hresult v = FileOperationResult.E_REQUIRES_ELEVATION) →
      convert_exceptions v msg = PyExc.permissionError msg) ∧
    (normalize_hresult v = FileOperationResult.E_DESTINATION_IS_FILE →
      convert_exceptions v msg = PyExc.notADirectoryError msg) ∧
    (normalize_hresult v = FileOperationResult.E_DESTINATION_IS_FOLDER →
      convert_exceptions v msg = PyExc.isADirectoryError msg) ∧
    (hresult_to_exception (normalize_hresult v) = none →
      convert_exceptions v msg = PyExc.fileOperatorError (normalize_hresult v) msg) := by
  refine ⟨?_, ?_, ?_, ?_, ?_⟩
  · intro h
    unfold convert_exceptions
    rcases h with h | h | h | h <;> rw [h] <;>
      norm_num [hresult_to_exception, FileOperationResult.E_DESTINATION_IS_FILE,
        FileOperationResult.E_DESTINATION_IS_FOLDER,
        FileOperationResult.E_ACCESS_DENIED_DESTINATION,
        FileOperationResult.E_ACCESS_DENIED_SOURCE,
        FileOperationResult.E_REQUIRES_ELEVATION,
        FileOperationResult.E_ALREADY_EXISTS_FOLDER,
        FileOperationResult.E_ALREADY_EXISTS_NORMAL,
        FileOperationResult.E_ALREADY_EXISTS_READONLY,
        FileOperationResult.E_ALREADY_EXISTS_SYSTEM]
  · intro h
    unfold convert_exceptions
    rcases h with h | h | h <;> rw [h] <;>
      norm_num [hresult_to_exception, FileOperationResult.E_DESTINATION_IS_FILE,
        FileOperationResult.E_DESTINATION_IS_FOLDER,
        FileOperationResult.E_ACCESS_DENIED_DESTINATION,
        FileOperationResult.E_ACCESS_DENIED_SOURCE,
        FileOperationResult.E_REQUIRES_ELEVATION,
        FileOperationResult.E_ALREADY_EXISTS_FOLDER,
        FileOperationResult.E_ALREADY_EXISTS_NORMAL,
        FileOperationResult.E_ALREADY_EXISTS_READONLY,
        FileOperationResult.E_ALREADY_EXISTS_SYSTEM]
  · intro h
    unfold convert_exceptions
    rw [h]
    norm_num [hresult_to_exception, FileOperationResult.E_DESTINATION_IS_FILE]
  · intro h
    unfold convert_exceptions
    rw [h]
    norm_num [hresult_to_exception, FileOperationResult.E_DESTINATION_IS_FILE,
      FileOperationResult.E_DESTINATION_IS_FOLDER]
  · intro h
    unfold convert_exceptions
    rw [h]
    rfl

/-- C5 witness at the signed code for `E_ALREADY_EXISTS_NORMAL`
(`0x80270029` as a signed 32-bit value is `-2144927703`): the raised error is
the already-exists kind. -/
theorem convert_exceptions_taxonomy_witness :
    convert_exceptions (-2144927703) "exists" = PyExc.fileExistsError "exists" := by
  refine (convert_exceptions_taxonomy (-2144927703) "exists").1 (Or.inr (Or.inl ?_))
  norm_num [normalize_hresult, int32_to_uint32,
    FileOperationResult.E_ALREADY_EXISTS_NORMAL]

end IFileOp

namespace IFileOp

/-! ## Python dict model (string keys, overwrite-on-assign) -/

/-- Model of a Python `dict[str, str]` as an association list with unique
keys: assignment replaces the value of an existing key in place and appends a
new key at the end (Python 3.7+ insertion order). -/
abbrev NameMap := List (String × String)

/-- `m[k] = v` for the dict model. -/
def dictInsert : NameMap → String → String → NameMap
  | [], k, v => [(k, v)]
  | p :: t, k, v => if p.1 = k then (k, v) :: t else p :: dictInsert t k v

/-- `m.get(k)` for the dict model. -/
def dictGet (m : NameMap) (k : String) : Option String :=
  (m.find? (fun p => p.1 == k)).map (fun p => p.2)

theorem dictGet_cons (p : String × String) (t : NameMap) (k : String) :
    dictGet (p :: t) k = if p.1 = k then some p.2 else dictGet t k := by
  by_cases h : p.1 = k
  · simp [dictGet, List.find?, h]
  · have hb : (p.1 == k) = false := by simpa using h
    simp [dictGet, List.find?, hb, h]

theorem dictGet_dictInsert (m : NameMap) (k v : String) :
    dictGet (dictInsert m k v) k = some v := by
  induction m with
  | nil =>
    unfold dictInsert
    rw [dictGet_cons]
    simp
  | cons p t ih =>
    unfold dictInsert
    by_cases hp : p.1 = k
    · rw [if_pos hp, dictGet_cons]
      simp
    · rw [if_neg hp, dictGet_cons, if_neg hp]
      exact ih

theorem dictGet_dictInsert_ne (m : NameMap) (k v k' : String) (h : k' ≠ k) :
    dictGet (dictInsert m k v) k' = dictGet m k' := by
  induction m with
  | nil =>
    unfold dictInsert
    rw [dictGet_cons, if_neg (by simpa using Ne.symm h)]
  | cons p t ih =>
    unfold dictInsert
    by_cases hp : p.1 = k
    · rw [if_pos hp, dictGet_cons, dictGet_cons,
        if_neg (by simpa using Ne.symm h), if_neg (by rw [hp]; exact Ne.symm h)]
    · rw [if_neg hp, dictGet_cons, dictGet_cons]
      by_cases hk' : p.1 = k'
      · rw [if_pos hk', if_pos hk']
      · rw [if_neg hk', if_neg hk']
        exact ih

theorem dictInsert_preserves_key (m : NameMap) (k v k' : String)
    (h : (dictGet m k').isSome) : (dictGet (dictInsert m k v) k').isSome := by
  by_cases he : k' = k
  · subst he
    rw [dictGet_dictInsert]
    simp
  · rwa [dictGet_dictInsert_ne m k v k' he]

/-! ## Progress-sink bridge (src/ifileoperation/com/fileoperationprogresssink.py) -/

/-- `comtypes.hresult.S_OK`. -/
def S_OK : Int := 0

/-- `comtypes.hresult.E_FAIL` (`0x80004005`, stored signed by comtypes). -/
def E_FAIL : Int := -2147467259

/-- The `_err_to_hresult` decorator (fileoperationprogresssink.py lines
43-52): run the forwarded handler call; any exception it raises is swallowed
and turned into the return value `E_FAIL`, a normal return becomes `S_OK`.
Every callback method of the COM sink adapter `_FileOperationProgressSink` is
this wrapper applied to the call forwarding to the user handler.  The wrapped
callback returns a plain integer — in the model its type `Int` (rather than
`Except PyExc Int`) expresses that no exception can cross into the native
call stack. -/
def err_to_hresult {α : Type} (method : α → Except PyExc Unit) (a : α) : Int :=
  match method a with
  | Except.ok _ => S_OK
  | Except.error _ => E_FAIL

/-- C6: the wrapped callback is total with respect to handler exceptions: a
raising handler yields `E_FAIL`, a normally-returning handler yields `S_OK`,
and the result is always one of these two codes — no handler exception
propagates. -/
theorem err_to_hresult_total {α : Type} (method : α → Except PyExc Unit) (a : α) :
    (∀ e, method a = Except.error e → err_to_hresult method a = E_FAIL) ∧
    (method a = Except.ok () → err_to_hresult method a = S_OK) ∧
    (err_to_hresult method a = S_OK ∨ err_to_hresult method a = E_FAIL) := by
  rcases h : method a with e | u
  · exact ⟨fun e' _ => by simp [err_to_hresult, h], fun hok => Except.noConfusion hok,
      Or.inr (by simp [err_to_hresult, h])⟩
  · exact ⟨fun e' he' => Except.noConfusion he', fun _ => by simp [err_to_hresult, h],
      Or.inl (by simp [err_to_hresult, h])⟩

/-- C6 witness: a handler that raises produces `E_FAIL`; one that returns
normally produces `S_OK`. -/
theorem err_to_hresult_total_witness :
    err_to_hresult (fun _ : Unit => Except.error (PyExc.userError "boom")) () = E_FAIL ∧
    err_to_hresult (fun _ : Unit => Except.ok ()) () = S_OK := by
  refine ⟨?_, ?_⟩
  · exact (err_to_hresult_total (fun _ : Unit => Except.error (PyExc.userError "boom"))
      ()).1 (PyExc.userError "boom") rfl
  · exact (err_to_hresult_total (fun _ : Unit => Except.ok ()) ()).2.1 rfl

/-- An `IShellItem` as seen by the bridge: its filesystem-path display form
(`SIGDN_FILESYSPATH`, possibly empty when the item has no filesystem backing)
and its generic display form (`SIGDN_NORMALDISPLAY`). -/
structure ShellItem where
  fsPath : String
  normalName : String
  deriving DecidableEq, Repr

/-- `get_name` (fileoperationprogresssink.py lines 33-40): `None` for a null
item pointer; otherwise the filesystem-path display form, falling back to the
generic display form when the former is falsy. -/
def get_name : Option ShellItem → Option String
  | none => none
  | some item => some (if item.fsPath = "" then item.normalName else item.fsPath)

/-- The `recycled` computation of `_FileOperationProgressSink.PostDeleteItem`
(fileoperationprogresssink.py line 173):
`recycled = False if not psiNewlyCreated else True`. -/
def PostDeleteItem_recycled (psiNewlyCreated : Option ShellItem) : Bool :=
  if psiNewlyCreated.isNone then false else true

end IFileOp

namespace IFileOp

/-! ## The session's default ProgressSink (src/ifileoperation/fileoperator.py lines 21-73) -/

/-- State of the `ProgressSink` instance owned by a `FileOperator`:
`name_map` is created once in `ProgressSink.__init__`; `result_code` is the
attribute set by `finish_operations` (absent before the first
`FinishOperations` callback). -/
structure SinkState where
  name_map : NameMap
  result_code : Option Int
  deriving DecidableEq, Repr

/-- `ProgressSink.__init__`: `self.name_map = {}` (and no `result_code` yet). -/
def ProgressSink.init : SinkState :=
  { name_map := [], result_code := none }

/-- `ProgressSink.finish_operations`: `self.result_code = result`. -/
def ProgressSink.finish_operations (s : SinkState) (result : Int) : SinkState :=
  { s with result_code := some result }

/-- `ProgressSink.post_copy_item`: `if new_name: self.name_map[source] = new_name`
(`new_name` is `None` or empty when the operation did not complete). -/
def ProgressSink.post_copy_item (s : SinkState) (tf : Nat) (source destination : String)
    (new_name : Option String) (result : Int) : SinkState :=
  match new_name with
  | some n => if n = "" then s else { s with name_map := dictInsert s.name_map source n }
  | none => s

/-- `ProgressSink.post_move_item`: same recording rule as for copy. -/
def ProgressSink.post_move_item (s : SinkState) (tf : Nat) (source destination : String)
    (new_name : Option String) (result : Int) : SinkState :=
  match new_name with
  | some n => if n = "" then s else { s with name_map := dictInsert s.name_map source n }
  | none => s

/-- `ProgressSink.post_rename_item`: same recording rule, no destination. -/
def ProgressSink.post_rename_item (s : SinkState) (tf : Nat) (source : String)
    (new_name : Option String) (result : Int) : SinkState :=
  match new_name with
  | some n => if n = "" then s else { s with name_map := dictInsert s.name_map source n }
  | none => s

/-- `ProgressSink.post_delete_item` (fileoperator.py lines 41-52): record an
outcome only when `result == FileOperationResult.SUCCESS`; the marker is
`'RECYCLE_BIN'` when `recycled` else `'DELETED'`. -/
def ProgressSink.post_delete_item (s : SinkState) (tf : Nat) (source : String)
    (result : Int) (recycled : Bool) : SinkState :=
  if result = FileOperationResult.SUCCESS then
    { s with
      name_map :=
        dictInsert s.name_map source (if recycled then "RECYCLE_BIN" else "DELETED") }
  else s

/-- One life-cycle callback delivered by the native engine to the session's
sink during `PerformOperations` (the events the default `ProgressSink`
reacts to; the remaining callbacks of the interface are inherited no-ops). -/
inductive SinkEvent where
  | finishOperations (result : Int)
  | postCopyItem (tf : Nat) (source destination : String) (newName : Option String)
      (result : Int)
  | postMoveItem (tf : Nat) (source destination : String) (newName : Option String)
      (result : Int)
  | postRenameItem (tf : Nat) (source : String) (newName : Option String) (result : Int)
  | postDeleteItem (tf : Nat) (source : String) (result : Int) (recycled : Bool)
  | otherEvent
  deriving DecidableEq, Repr

/-- Dispatch of one callback to the default sink's handler methods. -/
def runEvent (s : SinkState) : SinkEvent → SinkState
  | SinkEvent.finishOperations r => ProgressSink.finish_operations s r
  | SinkEvent.postCopyItem tf src dst n r => ProgressSink.post_copy_item s tf src dst n r
  | SinkEvent.postMoveItem tf src dst n r => ProgressSink.post_move_item s tf src dst n r
  | SinkEvent.postRenameItem tf src n r => ProgressSink.post_rename_item s tf src n r
  | SinkEvent.postDeleteItem tf src r rec => ProgressSink.post_delete_item s tf src r rec
  | SinkEvent.otherEvent => s

/-- The callbacks delivered during one native `PerformOperations` call, in
order. -/
def runEvents (s : SinkState) (events : List SinkEvent) : SinkState :=
  events.foldl runEvent s

theorem runEvent_postCopy_some (s : SinkState) (tf : Nat) (src dst n : String) (r : Int) :
    runEvent s (SinkEvent.postCopyItem tf src dst (some n) r) =
      if n = "" then s else { s with name_map := dictInsert s.name_map src n } := rfl

theorem runEvent_postMove_some (s : SinkState) (tf : Nat) (src dst n : String) (r : Int) :
    runEvent s (SinkEvent.postMoveItem tf src dst (some n) r) =
      if n = "" then s else { s with name_map := dictInsert s.name_map src n } := rfl

theorem runEvent_postRename_some (s : SinkState) (tf : Nat) (src n : String) (r : Int) :
    runEvent s (SinkEvent.postRenameItem tf src (some n) r) =
      if n = "" then s else { s with name_map := dictInsert s.name_map src n } := rfl

theorem runEvent_postDelete (s : SinkState) (tf : Nat) (src : String) (r : Int)
    (rec : Bool) :
    runEvent s (SinkEvent.postDeleteItem tf src r rec) =
      if r = FileOperationResult.SUCCESS then
        { s with
          name_map :=
            dictInsert s.name_map src (if rec then "RECYCLE_BIN" else "DELETED") }
      else s := rfl

/-- The sink only ever adds or overwrites entries of `name_map`: a key
present before a callback is still present after it. -/
theorem runEvent_preserves_key (s : SinkState) (e : SinkEvent) (k : String)
    (h : (dictGet s.name_map k).isSome) : (dictGet (runEvent s e).name_map k).isSome := by
  cases e with
  | finishOperations r => exact h
  | postCopyItem tf src dst n r =>
    rcases n with _ | n
    · exact h
    · rw [runEvent_postCopy_some]
      split_ifs <;> first | exact h | exact dictInsert_preserves_key _ _ _ _ h
  | postMoveItem tf src dst n r =>
    rcases n with _ | n
    · exact h
    · rw [runEvent_postMove_some]
      split_ifs <;> first | exact h | exact dictInsert_preserves_key _ _ _ _ h
  | postRenameItem tf src n r =>
    rcases n with _ | n
    · exact h
    · rw [runEvent_postRename_some]
      split_ifs <;> first | exact h | exact dictInsert_preserves_key _ _ _ _ h
  | postDeleteItem tf src r rec =>
    rw [runEvent_postDelete]
    split_ifs <;> first | exact h | exact dictInsert_preserves_key _ _ _ _ h
  | otherEvent => exact h

/-- Key preservation extends over a whole commit cycle's callbacks. -/
theorem runEvents_preserves_key (events : List SinkEvent) (s : SinkState) (k : String)
    (h : (dictGet s.name_map k).isSome) :
    (dictGet (runEvents s events).name_map k).isSome := by
  induction events generalizing s with
  | nil => exact h
  | cons e t ih => exact ih (runEvent s e) (runEvent_preserves_key s e k h)

end IFileOp

namespace IFileOp

/-- C7: the post-delete `recycled` flag passed to the handler is true exactly
when the engine supplied a non-null newly-created-item reference; and the
default session sink records an outcome for the source only when the event's
result equals `FileOperationResult.SUCCESS`, mapping it to `'RECYCLE_BIN'`
when recycled and `'DELETED'` otherwise, and recording nothing on any other
result code. -/
theorem post_delete_reporting (newly : Option ShellItem) (s : SinkState) (tf : Nat)
    (src : String) (result : Int) (recycled : Bool) :
    (PostDeleteItem_recycled newly = true ↔ ∃ item, newly = some item) ∧
    (result = FileOperationResult.SUCCESS →
      dictGet (ProgressSink.post_delete_item s tf src result recycled).name_map src =
        some (if recycled then "RECYCLE_BIN" else "DELETED")) ∧
    (result ≠ FileOperationResult.SUCCESS →
      ProgressSink.post_delete_item s tf src result recycled = s) := by
  refine ⟨?_, ?_, ?_⟩
  · cases newly with
    | none => simp [PostDeleteItem_recycled]
    | some item => simp [PostDeleteItem_recycled]
  · intro hr
    unfold ProgressSink.post_delete_item
    rw [if_pos hr]
    exact dictGet_dictInsert _ _ _
  · intro hr
    unfold ProgressSink.post_delete_item
    rw [if_neg hr]

/-- C7 witness: a success-coded post-delete event with a non-null
newly-created item marks the source as recycled. -/
theorem post_delete_reporting_witness :
    PostDeleteItem_recycled (some (ShellItem.mk "C:\\f.txt" "f.txt")) = true ∧
    dictGet (ProgressSink.post_delete_item ProgressSink.init 0 "C:\\f.txt"
        FileOperationResult.SUCCESS true).name_map "C:\\f.txt" = some "RECYCLE_BIN" := by
  have h := post_delete_reporting (some (ShellItem.mk "C:\\f.txt" "f.txt"))
    ProgressSink.init 0 "C:\\f.txt" FileOperationResult.SUCCESS true
  exact ⟨h.1.mpr ⟨ShellItem.mk "C:\\f.txt" "f.txt", rfl⟩, h.2.1 rfl⟩

end IFileOp

namespace IFileOp

/-! ## The FileOperator session (src/ifileoperation/fileoperator.py lines 76-301) -/

/-- The host-side state of a `FileOperator` instance.
`hasIfo` models whether the attribute `self.ifo` exists (it is removed by
`del self.ifo` on scope exit); `sinkAdvised` models whether the progress-sink
registration made by `self.ifo.Advise` in `__init__` is still in place
(released by `Unadvise`); `return_code`, `aborted` and `results` are the
attributes `commit` assigns (absent before). -/
structure FOState where
  commit_on_exit : Bool
  entered : Bool
  hasIfo : Bool
  sinkAdvised : Bool
  operations_queued : Bool
  sink : SinkState
  return_code : Option Int
  aborted : Option Bool
  results : Option NameMap
  deriving DecidableEq, Repr

/-- `FileOperator.__init__`: creates the engine, creates the sink (fresh
`name_map`), registers the sink (`Advise`), and initializes
`self.entered = False`, `self._operations_queued = False`. -/
def FileOperator.init (commit_on_exit : Bool) : FOState :=
  { commit_on_exit := commit_on_exit
    entered := false
    hasIfo := true
    sinkAdvised := true
    operations_queued := false
    sink := ProgressSink.init
    return_code := none
    aborted := none
    results := none }

/-- `FileOperator.__enter__` (fileoperator.py lines 149-154): raises the
reentrancy error when `self.entered` is already true, else marks the session
entered. -/
def FileOperator.enter (st : FOState) : Except PyExc FOState :=
  if st.entered then
    Except.error (PyExc.ifileOperationError "FileOperator is not reentrant")
  else
    Except.ok { st with entered := true }

/-- The outcome of one native `IFileOperation.PerformOperations` call, as
seen by the wrapper: either a normal return (with the value pywin32 returned,
the sink callbacks delivered during the call, and the value a later
`GetAnyOperationsAborted` returns), or a raised `com_error` with its signed
HRESULT and message (callbacks delivered before the failure included). -/
inductive NativeCall where
  | ok (ret : Option Int) (events : List SinkEvent) (abortedFlag : Bool)
  | comError (hresult : Int) (msg : String) (events : List SinkEvent)
  deriving DecidableEq, Repr

/-- `pythoncom`'s `E_UNEXPECTED` (`0x8000FFFF` as a signed 32-bit value). -/
def E_UNEXPECTED : Int := -2147418113

/-- Modelled from the spec: the dispatch that surfaces the native engine's
own "unexpected" failure class as `UnexpectedError` is part of the
repository's `com` package initializer, which is not under `src/` (only the
`UnexpectedError` class in `errors.py` and its handler in
`FileOperator.commit` are).  Per the spec (§4.4, §7), the engine's
"unexpected" failure class (`E_UNEXPECTED`) raises `UnexpectedError`; every
other caught `com_error` is translated by `convert_exceptions` from
`com/common.py` exactly as in the source. -/
def convert_exceptions_full (hresult : Int) (msg : String) : PyExc :=
  if normalize_hresult hresult = normalize_hresult E_UNEXPECTED then
    PyExc.unexpectedError
  else convert_exceptions hresult msg

/-- `FileOperator._perform_operations` (fileoperator.py lines 280-282):
`self.return_code = self.ifo.PerformOperations()` under the
exception-translating wrapper.  The sink callbacks delivered during the
native call mutate `self.sink`; when the native call raises, the assignment
to `self.return_code` does not happen and the translated exception
propagates (with the sink mutations retained on `self`). -/
def FileOperator.perform_operations (st : FOState) (native : NativeCall) :
    Except (PyExc × FOState) FOState :=
  match native with
  | NativeCall.ok ret events _ =>
    Except.ok { st with sink := runEvents st.sink events, return_code := ret }
  | NativeCall.comError hr msg events =>
    Except.error (convert_exceptions_full hr msg,
      { st with sink := runEvents st.sink events })

/-- `FileOperator.commit` (fileoperator.py lines 284-300): perform the queued
operations; on `UnexpectedError` with nothing queued, fabricate the empty
success (`return_code = 0`, `aborted = False`, `results = {}`); on success,
read the aborted flag, adopt the sink's `name_map` as `self.results`, and
default `return_code` to the sink's `result_code` when the native call
returned `None`. -/
def FileOperator.commit (st : FOState) (native : NativeCall) :
    Except (PyExc × FOState) FOState :=
  match FileOperator.perform_operations st native with
  | Except.error (PyExc.unexpectedError, st') =>
    if !st'.operations_queued then
      Except.ok
        { st' with return_code := some 0, aborted := some false, results := some [] }
    else
      Except.error (PyExc.unexpectedError, st')
  | Except.error e => Except.error e
  | Except.ok st' =>
    let ab : Bool :=
      match native with
      | NativeCall.ok _ _ abortedFlag => abortedFlag
      | NativeCall.comError _ _ _ => false
    let rc : Option Int :=
      match st'.return_code with
      | some r => some r
      | none => st'.sink.result_code
    Except.ok
      { st' with aborted := some ab, results := some st'.sink.name_map, return_code := rc }

/-- `FileOperator.__exit__` (fileoperator.py lines 156-161): only when the
session was configured to auto-commit and no exception is in flight, run
`commit()` and then `Unadvise` the sink registration; in every case that
reaches it, `del self.ifo` discards the engine handle.  When `commit()`
raises, the exception propagates out of `__exit__` before `Unadvise` and
`del self.ifo` run.  `self.entered` is never reset. -/
def FileOperator.exitScope (st : FOState) (excInFlight : Bool) (native : NativeCall) :
    Except (PyExc × FOState) FOState :=
  if st.commit_on_exit && !excInFlight then
    match FileOperator.commit st native with
    | Except.error e => Except.error e
    | Except.ok st' => Except.ok { st' with sinkAdvised := false, hasIfo := false }
  else
    Except.ok { st with hasIfo := false }

end IFileOp

namespace IFileOp

/-- C1: committing a session with zero queued operations — where the native
engine reports its "unexpected" failure class (`E_UNEXPECTED`) for the empty
queue — completes without raising: the fabricated result has an empty outcome
map, a falsy aborted flag and return code `0`; in particular no generic
native-failure error (`FileOperatorError`) escapes. -/
theorem commit_empty_queue (st : FOState) (msg : String) (events : List SinkEvent)
    (h : st.operations_queued = false) :
    ∃ st', FileOperator.commit st (NativeCall.comError E_UNEXPECTED msg events) =
        Except.ok st' ∧
      st'.results = some [] ∧ st'.aborted = some false ∧ st'.return_code = some 0 := by
  have hconv : convert_exceptions_full E_UNEXPECTED msg = PyExc.unexpectedError := by
    unfold convert_exceptions_full
    rw [if_pos rfl]
  have hperf : FileOperator.perform_operations st
        (NativeCall.comError E_UNEXPECTED msg events) =
      Except.error (PyExc.unexpectedError,
        { st with sink := runEvents st.sink events }) := by
    rw [show FileOperator.perform_operations st
          (NativeCall.comError E_UNEXPECTED msg events) =
        Except.error (convert_exceptions_full E_UNEXPECTED msg,
          { st with sink := runEvents st.sink events }) from rfl, hconv]
  refine ⟨{ st with
      sink := runEvents st.sink events
      return_code := some 0
      aborted := some false
      results := some [] }, ?_, rfl, rfl, rfl⟩
  unfold FileOperator.commit
  rw [hperf]
  simp [h]

/-- C1 witness: a freshly initialized session (nothing queued) commits the
empty no-op successfully. -/
theorem commit_empty_queue_witness :
    (FileOperator.init false).operations_queued = false ∧
    ∃ st', FileOperator.commit (FileOperator.init false)
        (NativeCall.comError E_UNEXPECTED "Unspecified error" []) = Except.ok st' ∧
      st'.results = some [] ∧ st'.aborted = some false ∧ st'.return_code = some 0 :=
  ⟨rfl, commit_empty_queue (FileOperator.init false) "Unspecified error" [] rfl⟩

/-- C2 (the code as written): `__enter__` on an already-open session raises
the reentrancy error — but because `__exit__` never resets `self.entered`,
entering, exiting and entering again on the same instance also raises it,
contradicting the claim (and the repository's own `test_reuse`). -/
theorem reuse_after_exit_raises :
    ∃ st₁ st₂,
      FileOperator.enter (FileOperator.init false) = Except.ok st₁ ∧
      FileOperator.enter st₁ =
        Except.error (PyExc.ifileOperationError "FileOperator is not reentrant") ∧
      FileOperator.exitScope st₁ false (NativeCall.ok none [] false) = Except.ok st₂ ∧
      st₂.entered = true ∧
      FileOperator.enter st₂ =
        Except.error (PyExc.ifileOperationError "FileOperator is not reentrant") := by
  exact ⟨_, _, rfl, rfl, rfl, rfl, rfl⟩

/-- C9 counterexample: a session not configured for auto-commit (the
default), exiting normally, discards the engine handle but does **not**
release the progress-sink registration — `Unadvise` only runs on the
auto-commit-and-no-exception path, contradicting "on every exit … the
progress-sink registration is released". -/
theorem exit_keeps_sink_advised :
    ∃ st₁ st₂,
      FileOperator.enter (FileOperator.init false) = Except.ok st₁ ∧
      FileOperator.exitScope st₁ false (NativeCall.ok none [] false) = Except.ok st₂ ∧
      st₂.sinkAdvised = true ∧ st₂.hasIfo = false := by
  exact ⟨_, _, rfl, rfl, rfl, rfl⟩

/-- C9 (amended): on scope exit, when auto-commit is not configured or an
exception is in flight, only the engine handle is discarded (no commit, no
unadvise); when auto-commit is configured and no exception is in flight,
`commit()` runs, and on its success the sink registration is released and
the handle discarded, while on its failure the exception propagates out of
`__exit__` with neither release performed. -/
theorem exitScope_characterization (st : FOState) (excInFlight : Bool)
    (native : NativeCall) :
    (¬(st.commit_on_exit = true ∧ excInFlight = false) →
      FileOperator.exitScope st excInFlight native =
        Except.ok { st with hasIfo := false }) ∧
    (st.commit_on_exit = true → excInFlight = false →
      (∀ st', FileOperator.commit st native = Except.ok st' →
        FileOperator.exitScope st excInFlight native =
          Except.ok { st' with sinkAdvised := false, hasIfo := false }) ∧
      (∀ e, FileOperator.commit st native = Except.error e →
        FileOperator.exitScope st excInFlight native = Except.error e)) := by
  constructor
  · intro hn
    unfold FileOperator.exitScope
    have hb : (st.commit_on_exit && !excInFlight) = false := by
      rcases hc : st.commit_on_exit <;> rcases he : excInFlight <;> simp_all
    rw [hb]
    simp
  · intro hc he
    unfold FileOperator.exitScope
    have hb : (st.commit_on_exit && !excInFlight) = true := by
      rw [hc, he]
      rfl
    rw [hb]
    constructor
    · intro st' hok
      rw [hok]
      simp
    · intro e herr
      rw [herr]
      simp

/-- C9 witness for the amended characterization: a default session
(`commit_on_exit = False`) exiting normally keeps everything but the engine
handle. -/
theorem exitScope_characterization_witness :
    FileOperator.exitScope (FileOperator.init false) false (NativeCall.ok none [] false) =
      Except.ok { FileOperator.init false with hasIfo := false } :=
  (exitScope_characterization (FileOperator.init false) false
    (NativeCall.ok none [] false)).1 (by simp [FileOperator.init])

/-- C10 counterexample: the sink's `name_map` is created once per
`FileOperator` instance, never per commit; an entry recorded by a callback
during a first commit is still present in the results adopted by a second
commit of the same instance during which no callback recorded anything. -/
theorem results_persist_across_commits :
    ∃ st₁ st₂,
      FileOperator.commit (FileOperator.init false)
          (NativeCall.ok none
            [SinkEvent.postCopyItem 0 "C:\\src\\a.txt" "C:\\dst"
              (some "C:\\dst\\a.txt") FileOperationResult.SUCCESS] false) =
        Except.ok st₁ ∧
      FileOperator.commit st₁ (NativeCall.ok none [] false) = Except.ok st₂ ∧
      st₁.results = some [("C:\\src\\a.txt", "C:\\dst\\a.txt")] ∧
      st₂.results = some [("C:\\src\\a.txt", "C:\\dst\\a.txt")] := by
  exact ⟨_, _, rfl, rfl, rfl, rfl⟩

/-- C10 (amended): the outcome map accumulates across commits of one
instance: any key present in the sink's map before a commit (for example
recorded during an earlier commit) is still present in the results adopted
by the next successful commit. -/
theorem commit_results_accumulate (st : FOState) (ret : Option Int)
    (events : List SinkEvent) (ab : Bool) (k : String)
    (h : (dictGet st.sink.name_map k).isSome) :
    ∃ st', FileOperator.commit st (NativeCall.ok ret events ab) = Except.ok st' ∧
      ∃ m, st'.results = some m ∧ (dictGet m k).isSome := by
  refine ⟨_, rfl, _, rfl, ?_⟩
  exact runEvents_preserves_key events st.sink k h

/-- C10 amended-claim witness: a key recorded before a second, empty commit
is still in that commit's results. -/
theorem commit_results_accumulate_witness :
    ∃ st', FileOperator.commit
        { FileOperator.init false with
          sink := { name_map := [("C:\\src\\a.txt", "C:\\dst\\a.txt")],
                    result_code := none } }
        (NativeCall.ok none [] false) = Except.ok st' ∧
      ∃ m, st'.results = some m ∧ (dictGet m "C:\\src\\a.txt").isSome :=
  commit_results_accumulate
    { FileOperator.init false with
      sink := { name_map := [("C:\\src\\a.txt", "C:\\dst\\a.txt")],
                result_code := none } }
    none [] false "C:\\src\\a.txt" (by rw [dictGet_cons]; simp)

end IFileOp

namespace IFileOp

/-! ## Windows path splitting (pathlib.PureWindowsPath as used by rename_file)

`FileOperator.rename_file` inspects `Path(new_name).parts`,
`Path(...).parent` and `Path(...).name`.  The model below reproduces
`pathlib`'s Windows parsing for drive-letter and relative paths (either
separator accepted, repeated separators collapsed, trailing separators and
`'.'` components dropped); UNC share prefixes are not modelled (no claim
involves them). -/

def isSep (c : Char) : Bool := c = '\\' || c = '/'

/-- A parsed Windows path: optional drive (`"C:"`), whether it is rooted,
and the non-anchor components. -/
structure WinPath where
  drive : String
  root : Bool
  comps : List String
  deriving DecidableEq, Repr

/-- Split the tail of a path into components, dropping empty and `'.'`
entries, as `pathlib` does. -/
def splitComps (cs : List Char) : List String :=
  ((cs.splitOnP fun c => isSep c).map (fun l => String.mk l)).filter
    (fun c => c ≠ "" && c ≠ ".")

def parseWinPath (s : String) : WinPath :=
  match s.data with
  | c₀ :: c₁ :: rest =>
    if c₁ = ':' then
      { drive := String.mk [c₀, ':']
        root := match rest with | c :: _ => isSep c | [] => false
        comps := splitComps rest }
    else
      { drive := ""
        root := isSep c₀
        comps := splitComps (c₀ :: c₁ :: rest) }
  | cs =>
    { drive := ""
      root := match cs with | c :: _ => isSep c | [] => false
      comps := splitComps cs }

/-- `Path.anchor`: drive plus root. -/
def WinPath.anchor (p : WinPath) : String :=
  p.drive ++ (if p.root then "\\" else "")

/-- `Path.parts`: the anchor (when non-empty) followed by the components. -/
def WinPath.parts (p : WinPath) : List String :=
  (if p.anchor = "" then [] else [p.anchor]) ++ p.comps

/-- `Path.name`: the last component, `''` when there is none. -/
def WinPath.name (p : WinPath) : String :=
  (p.comps.getLast?).getD ""

/-- `Path.parent`: drop the last component; the anchor-only (or empty) path
is its own parent. -/
def WinPath.parent (p : WinPath) : WinPath :=
  if p.comps = [] then p else { p with comps := p.comps.dropLast }

/-- `str(Path(...))`: `'.'` for the empty relative path, else anchor plus
backslash-joined components. -/
def WinPath.toStr (p : WinPath) : String :=
  if p.drive = "" && !p.root && p.comps.isEmpty then "."
  else p.anchor ++ String.intercalate "\\" p.comps

/-! ## rename_file (src/ifileoperation/fileoperator.py lines 192-220) -/

/-- What a queuing method submits to the native engine:
`RenameItem(parse_filename(source), new_name)` or
`MoveItem(parse_filename(source), parse_filename(destination, True), new_name)`
with the arguments recorded at the queuing boundary. -/
inductive QueuedOp where
  | renameItem (source : String) (newName : String)
  | moveItem (source : String) (destinationDir : String) (newName : Option String)
  deriving DecidableEq, Repr

/-- `FileOperator.rename_file(source, new_name, allow_move)`: when
`allow_move` and `new_name` parses to more than one part, compare
`Path(source).parts[:-1]` with `dest_parts[:-1]`; on a mismatch delegate to
`move_file(source, dest_path.parent, dest_path.name)` (which queues a
`MoveItem` with the parent directory resolved with `force=True`), otherwise
queue a plain `RenameItem` — with `new_name` unchanged when it parsed to a
single part, and with `dest_path.name` when it contained the source's own
directory. -/
def rename_file (source : String) (new_name : String) (allow_move : Bool) : QueuedOp :=
  if allow_move then
    if (parseWinPath new_name).parts.length = 1 then
      QueuedOp.renameItem source new_name
    else if (parseWinPath source).parts.dropLast ≠ (parseWinPath new_name).parts.dropLast
    then
      QueuedOp.moveItem source (parseWinPath new_name).parent.toStr
        (some (parseWinPath new_name).name)
    else
      QueuedOp.renameItem source (parseWinPath new_name).name
  else
    QueuedOp.renameItem source new_name

end IFileOp

namespace IFileOp

/-- C3 counterexample: for `new_name = "g.txt/"` — which `pathlib` parses to
the single part `('g.txt',)`, i.e. no directory component, with bare
filename `"g.txt"` — the code queues a rename to the *unchanged* string
`"g.txt/"`, not to the bare filename, so the claim as stated fails. -/
theorem rename_file_trailing_sep :
    (parseWinPath "g.txt/").parts.length = 1 ∧
    (parseWinPath "g.txt/").name = "g.txt" ∧
    rename_file "C:\\a\\f.txt" "g.txt/" true =
      QueuedOp.renameItem "C:\\a\\f.txt" "g.txt/" ∧
    rename_file "C:\\a\\f.txt" "g.txt/" true ≠
      QueuedOp.renameItem "C:\\a\\f.txt" (parseWinPath "g.txt/").name := by
  refine ⟨by decide, by decide, by decide, by decide⟩

/-- C3 (amended): with `allow_move = True`, when `new_name` parses to a
single part the queued operation is a plain rename to `new_name` as given
(which equals the bare filename whenever `new_name` contains no separator);
when `new_name` has more parts and its directory parts differ from the
source's, a move to `new_name`'s parent directory with `new_name`'s filename
is queued; when the directory parts coincide, a plain rename to the bare
filename is queued.  The spec's two examples are reproduced verbatim. -/
theorem rename_file_branches (source new_name : String) :
    ((parseWinPath new_name).parts.length = 1 →
      rename_file source new_name true = QueuedOp.renameItem source new_name) ∧
    ((parseWinPath new_name).parts.length ≠ 1 →
      (parseWinPath source).parts.dropLast ≠ (parseWinPath new_name).parts.dropLast →
      rename_file source new_name true =
        QueuedOp.moveItem source (parseWinPath new_name).parent.toStr
          (some (parseWinPath new_name).name)) ∧
    ((parseWinPath new_name).parts.length ≠ 1 →
      (parseWinPath source).parts.dropLast = (parseWinPath new_name).parts.dropLast →
      rename_file source new_name true =
        QueuedOp.renameItem source (parseWinPath new_name).name) ∧
    rename_file "C:\\a\\f.txt" "g.txt" true =
      QueuedOp.renameItem "C:\\a\\f.txt" "g.txt" ∧
    rename_file "C:\\a\\f.txt" "C:\\b\\g.txt" true =
      QueuedOp.moveItem "C:\\a\\f.txt" "C:\\b" (some "g.txt") := by
  refine ⟨?_, ?_, ?_, by decide, by decide⟩
  · intro h1
    unfold rename_file
    rw [if_pos rfl, if_pos h1]
  · intro h1 h2
    unfold rename_file
    rw [if_pos rfl, if_neg h1, if_pos h2]
  · intro h1 h2
    unfold rename_file
    rw [if_pos rfl, if_neg h1, if_neg (by simpa using h2)]

/-- C3 amended-claim witness at the spec's same-directory example
`rename_file("C:\a\f.txt", "C:\a\g.txt")`: a plain rename to the bare
filename. -/
theorem rename_file_branches_witness :
    rename_file "C:\\a\\f.txt" "C:\\a\\g.txt" true =
      QueuedOp.renameItem "C:\\a\\f.txt" "g.txt" := by
  have h := (rename_file_branches "C:\\a\\f.txt" "C:\\a\\g.txt").2.2.1
    (by decide) (by decide)
  simpa using h

end IFileOp

namespace IFileOp

/-! ## Forced name resolution (src/ifileoperation/com/filesysbinddata.py) -/

/-- `FileAttributeFlags.DIRECTORY` (flags.py line 26). -/
def FileAttributeFlags.DIRECTORY : Nat := 0x10

/-- The `WIN32_FIND_DATAW` structure as used here: only the
`dwFileAttributes` member is populated. -/
structure WinFindData where
  dwFileAttributes : Nat
  deriving DecidableEq, Repr

/-- A bind context carrying a `File System Bind Data` object with its find
data (`create_bind_ctx`, filesysbinddata.py lines 39-46). -/
structure BindCtx where
  find_data : WinFindData
  deriving DecidableEq, Repr

def create_bind_ctx (fd : WinFindData) : BindCtx :=
  { find_data := fd }

/-- `FOLDER_BIND_CTX` (filesysbinddata.py line 49): the shared bind context
whose synthetic find data marks the path as a directory. -/
def FOLDER_BIND_CTX : BindCtx :=
  create_bind_ctx { dwFileAttributes := FileAttributeFlags.DIRECTORY }

/-- `E_FILE_NOT_FOUND` (filesysbinddata.py line 52): the two signed HRESULTs
the shell raises for a missing path. -/
def E_FILE_NOT_FOUND : List Int := [-2147024894, -2147024893]

/-- Outcome of `shell.SHCreateItemFromParsingName` as seen by the wrapper:
an item, or a raised `com_error`. -/
inductive NativeResolve where
  | ok (item : ShellItem)
  | comError (hresult : Int) (msg : String)
  deriving DecidableEq, Repr

/-- `filename_to_IShellItem(path, force)` (filesysbinddata.py lines 55-68):
make the path absolute, resolve it with `FOLDER_BIND_CTX` when `force` else
with no bind context, translate a not-found `com_error` into
`FileNotFoundError(path)`, and re-raise any other `com_error` unchanged.
`shCreate` is the native resolution call (a function of the absolute path
and the optional bind context) and `abspath` is `os.path.abspath`; both are
parameters of the embedding.  The model is effect-free: resolution returns a
value and never creates the path on disk. -/
def filename_to_IShellItem (shCreate : String → Option BindCtx → NativeResolve)
    (abspath : String → String) (path : String) (force : Bool) :
    Except PyExc ShellItem :=
  match shCreate (abspath path) (if force then some FOLDER_BIND_CTX else none) with
  | NativeResolve.ok item => Except.ok item
  | NativeResolve.comError hr msg =>
    if hr ∈ E_FILE_NOT_FOUND then Except.error (PyExc.fileNotFoundError (abspath path))
    else Except.error (PyExc.comError hr msg)

/-- C8: when plain resolution of a path fails with a not-found code,
`force=False` raises `FileNotFoundError`; with `force=True` the call supplies
the shared `FOLDER_BIND_CTX` — whose synthetic metadata carries exactly the
directory attribute — and returns whatever item the engine then yields, so a
nonexistent destination resolves to a usable item; and any native failure
with a code outside the not-found pair propagates unchanged for either value
of `force`. -/
theorem filename_to_IShellItem_force (shCreate : String → Option BindCtx → NativeResolve)
    (abspath : String → String) (path : String) :
    FOLDER_BIND_CTX.find_data.dwFileAttributes = FileAttributeFlags.DIRECTORY ∧
    (∀ hr msg, shCreate (abspath path) none = NativeResolve.comError hr msg →
      hr ∈ E_FILE_NOT_FOUND →
      filename_to_IShellItem shCreate abspath path false =
        Except.error (PyExc.fileNotFoundError (abspath path))) ∧
    (∀ item, shCreate (abspath path) (some FOLDER_BIND_CTX) = NativeResolve.ok item →
      filename_to_IShellItem shCreate abspath path true = Except.ok item) ∧
    (∀ force hr msg,
      shCreate (abspath path) (if force then some FOLDER_BIND_CTX else none) =
        NativeResolve.comError hr msg →
      hr ∉ E_FILE_NOT_FOUND →
      filename_to_IShellItem shCreate abspath path force =
        Except.error (PyExc.comError hr msg)) := by
  refine ⟨rfl, ?_, ?_, ?_⟩
  · intro hr msg hcall hnf
    unfold filename_to_IShellItem
    rw [show (if false then some FOLDER_BIND_CTX else none) = none from rfl, hcall]
    simp [hnf]
  · intro item hcall
    unfold filename_to_IShellItem
    rw [show (if true then some FOLDER_BIND_CTX else none) = some FOLDER_BIND_CTX
      from rfl, hcall]
  · intro force hr msg hcall hnf
    unfold filename_to_IShellItem
    rw [hcall]
    simp [hnf]

/-- C8 witness: a concrete native engine that reports not-found without a
bind context and yields an item under the folder bind context. -/
theorem filename_to_IShellItem_force_witness :
    filename_to_IShellItem
        (fun _ ctx =>
          match ctx with
          | none => NativeResolve.comError (-2147024894) "not found"
          | some _ => NativeResolve.ok (ShellItem.mk "C:\\newdir" "newdir"))
        (fun s => s) "C:\\newdir" false =
      Except.error (PyExc.fileNotFoundError "C:\\newdir") ∧
    filename_to_IShellItem
        (fun _ ctx =>
          match ctx with
          | none => NativeResolve.comError (-2147024894) "not found"
          | some _ => NativeResolve.ok (ShellItem.mk "C:\\newdir" "newdir"))
        (fun s => s) "C:\\newdir" true =
      Except.ok (ShellItem.mk "C:\\newdir" "newdir") := by
  constructor
  · exact (filename_to_IShellItem_force
      (fun _ ctx =>
        match ctx with
        | none => NativeResolve.comError (-2147024894) "not found"
        | some _ => NativeResolve.ok (ShellItem.mk "C:\\newdir" "newdir"))
      (fun s => s) "C:\\newdir").2.1 (-2147024894) "not found" rfl (by decide)
  · exact (filename_to_IShellItem_force
      (fun _ ctx =>
        match ctx with
        | none => NativeResolve.comError (-2147024894) "not found"
        | some _ => NativeResolve.ok (ShellItem.mk "C:\\newdir" "newdir"))
      (fun s => s) "C:\\newdir").2.2.1 (ShellItem.mk "C:\\newdir" "newdir") rfl

end IFileOp
